import Mathlib

/-!
Verification development for the sale-order frontend API client and pages.

The JavaScript source is shallowly embedded: JSON values become the
inductive type Js, browser storage cells become Option-valued state that
is passed explicitly, network responses become records carrying the HTTP
status and the parse result of the body, and functions that can throw
return Except. Each embedded definition mirrors one function of the
source (src/unnamed/part_000 api client, src/frontend/src/api/storage.js,
src/frontend/src/pages/NewUpload.jsx, src/unnamed/part_001,
src/unnamed/part_002, src/frontend/src/pages/Search.jsx,
src/frontend/src/auth/AuthContext.jsx).
-/

namespace OrderApp

/-- Model of a JavaScript value as produced by JSON.parse: null, booleans,
numbers (integral, which covers every value the claims touch), strings,
arrays and objects. Object field lists are as produced by JSON.parse, so
keys are distinct and lookup of the first match is lookup of the only
match. -/
inductive Js where
  | null
  | bool (b : Bool)
  | num (n : Int)
  | str (s : String)
  | arr (elems : List Js)
  | obj (fields : List (String × Js))

/-- JavaScript truthiness of a value: null, false, 0 and the empty string
are falsy; every array and object is truthy. -/
def truthy : Js → Bool
  | .null => false
  | .bool b => b
  | .num n => n != 0
  | .str s => s != ""
  | .arr _ => true
  | .obj _ => true

mutual

/-- JavaScript string coercion String(v), as applied by the Error
constructor to a non-string message value. -/
def jsToString : Js → String
  | .null => "null"
  | .bool b => if b then "true" else "false"
  | .num n => toString n
  | .str s => s
  | .arr l => jsArrString l
  | .obj _ => "[object Object]"

/-- String coercion of an array: elements joined by commas, with null
elements rendered empty, as Array.prototype.toString does. -/
def jsArrString : List Js → String
  | [] => ""
  | [x] => jsElemString x
  | x :: xs => jsElemString x ++ "," ++ jsArrString xs

/-- String coercion of one array element: null becomes the empty string,
anything else coerces as usual. -/
def jsElemString : Js → String
  | .null => ""
  | .bool b => if b then "true" else "false"
  | .num n => toString n
  | .str s => s
  | .arr l => jsArrString l
  | .obj _ => "[object Object]"

end

/-- Property access v?.k: a field of an object when present, undefined
(modelled as none) on a missing field or on any non-object. -/
def getField : Js → String → Option Js
  | .obj fs, k => fs.lookup k
  | _, _ => none

/-- The JavaScript expression a || b where a is a possibly undefined
value: b when a is undefined or falsy, a otherwise. -/
def jsOrV (a : Option Js) (b : Js) : Js :=
  match a with
  | some v => if truthy v then v else b
  | none => b

/-- Whether the field k of data exists and is truthy. -/
def truthyField (data : Js) (k : String) : Bool :=
  match getField data k with
  | some v => truthy v
  | none => false

/-- Two-step optional chain v?.k1?.k2. -/
def chain2 (v : Js) (k1 k2 : String) : Option Js :=
  match getField v k1 with
  | some w => getField w k2
  | none => none

/-! Header objects. A JavaScript object literal with spreads is modelled
as an association list where a spread of b over a removes from a every
key that b also defines, then appends b, matching the key-uniqueness and
override semantics of object spread. -/

/-- Object spread of b over a, as in the literal with fields of a then
fields of b: keys of b override keys of a. -/
def jsSpread (a b : List (String × String)) : List (String × String) :=
  a.filter (fun p => !((b.map Prod.fst).contains p.1)) ++ b

/-- Number of entries of a header list carrying the key k. -/
def countKey (hs : List (String × String)) (k : String) : Nat :=
  (hs.filter (fun p => p.1 == k)).length

/-! Token store (src/frontend/src/api/storage.js). The localStorage cell
under the fixed key sale_order_token is modelled as an Option String:
none when no item is stored. -/

/-- The fixed localStorage key of the token store. -/
def TOKEN_KEY : String := "sale_order_token"

/-- State of the token store: content of the localStorage cell. -/
abbrev Store := Option String

/-- getToken: localStorage.getItem(TOKEN_KEY) || "" — the stored string,
with null (absent) and the empty string both collapsing to "". -/
def getToken (s : Store) : String :=
  match s with
  | some v => if v = "" then "" else v
  | none => ""

/-- setToken: a falsy (empty) token is a no-op, otherwise the cell is
overwritten. -/
def setToken (t : String) (s : Store) : Store :=
  if t = "" then s else some t

/-- clearToken: localStorage.removeItem(TOKEN_KEY). -/
def clearToken (_s : Store) : Store := none

/-! API client (src/unnamed/part_000). A network response is abstracted
by its HTTP status and the outcome of parsing its body as JSON (none
when the body is not valid JSON). -/

/-- Response as seen by apiFetch and uploadExcel: HTTP status plus the
JSON parse of the body. -/
structure Response where
  status : Nat
  jsonBody : Option Js

/-- The res.ok predicate of fetch: status in the inclusive range 200 to
299. -/
def resOk (status : Nat) : Bool :=
  decide (200 ≤ status ∧ status ≤ 299)

/-- Parsed data of a response: res.json().catch(() => ({})) — the parsed
body, or the empty object when parsing fails. -/
def parsedBody (r : Response) : Js :=
  r.jsonBody.getD (Js.obj [])

/-- The generic failure message of apiFetch for a status. -/
def genericMsg (status : Nat) : String :=
  "Request failed (" ++ toString status ++ ")"

/-- Error message computed by apiFetch on a non-ok response:
data?.error || data?.message || `Request failed (status)`, coerced to a
string by the Error constructor. -/
def apiFetchMsg (data : Js) (status : Nat) : String :=
  jsToString (jsOrV (getField data "error")
    (jsOrV (getField data "message") (Js.str (genericMsg status))))

/-- withAuthHeaders: merges an Authorization bearer header into the given
headers when a token is stored, returns the headers unchanged otherwise. -/
def withAuthHeaders (s : Store) (headers : List (String × String)) :
    List (String × String) :=
  let token := getToken s
  if token = "" then headers
  else jsSpread headers [("Authorization", "Bearer " ++ token)]

/-- Headers actually sent by apiFetch: a Content-Type of application/json
spread under the final headers, which are the caller headers with the
auth header merged when the auth flag is set. -/
def apiFetchHeaders (s : Store) (auth : Bool) (headers : List (String × String)) :
    List (String × String) :=
  let finalHeaders := if auth then withAuthHeaders s headers else headers
  jsSpread [("Content-Type", "application/json")] finalHeaders

/-- apiFetch after the response arrived: clears the token store on status
401, parses the body with fallback to the empty object, returns the data
on an ok status and throws the computed message otherwise. The returned
pair is the token store afterwards and the outcome. -/
def apiFetch (s : Store) (resp : Response) : Store × Except String Js :=
  let s1 := if resp.status = 401 then clearToken s else s
  let data := parsedBody resp
  if resOk resp.status then (s1, Except.ok data)
  else (s1, Except.error (apiFetchMsg data resp.status))

/-- Error message computed by uploadExcel on a non-ok response:
data?.error || `Upload failed (status)`. -/
def uploadMsg (data : Js) (status : Nat) : String :=
  jsToString (jsOrV (getField data "error")
    (Js.str ("Upload failed (" ++ toString status ++ ")")))

/-- uploadExcel after the response arrived: clears the token store on
401, then either returns the parsed data or throws its message. -/
def uploadExcel (s : Store) (resp : Response) : Store × Except String Js :=
  let s1 := if resp.status = 401 then clearToken s else s
  let data := parsedBody resp
  if resOk resp.status then (s1, Except.ok data)
  else (s1, Except.error (uploadMsg data resp.status))

/-- Response as seen by downloadReportBlob: status, JSON parse of the
body (consulted only on failure) and the raw payload bytes. -/
structure BlobResponse where
  status : Nat
  jsonBody : Option Js
  payload : List Nat

/-- Error message computed by downloadReportBlob on a non-ok response:
data?.error || `Download failed (status)`. -/
def downloadMsg (data : Js) (status : Nat) : String :=
  jsToString (jsOrV (getField data "error")
    (Js.str ("Download failed (" ++ toString status ++ ")")))

/-- downloadReportBlob after the response arrived: clears the token store
on 401; on an ok status returns the raw payload as an opaque blob, on
failure parses the body as JSON for the error message. -/
def downloadReportBlob (s : Store) (resp : BlobResponse) :
    Store × Except String (List Nat) :=
  let s1 := if resp.status = 401 then clearToken s else s
  if resOk resp.status then (s1, Except.ok resp.payload)
  else (s1, Except.error (downloadMsg (resp.jsonBody.getD (Js.obj [])) resp.status))

/-! Session-scoped upload draft (src/frontend/src/pages/NewUpload.jsx and
src/unnamed/part_001). The sessionStorage cell under the upload key is a
string or absent; its content matters only through JSON.parse, so a
stored string is abstracted as either valid JSON text denoting a value v
(which is what JSON.stringify writes), the empty string, or malformed
text on which JSON.parse throws. -/

/-- Content of a sessionStorage string as it behaves under JSON.parse. -/
inductive StoredText where
  | lit (v : Js)
  | empty
  | malformed

/-- A sessionStorage cell: absent or holding a string. -/
abbrev Cell := Option StoredText

/-- JSON.parse(sessionStorage.getItem(KEY) || "null"): an absent item and
the empty string are replaced by the text null, which parses to the null
value; malformed text makes the parse throw. -/
def parseDraft : Cell → Except String Js
  | none => Except.ok Js.null
  | some (.lit v) => Except.ok v
  | some .empty => Except.ok Js.null
  | some .malformed => Except.error "SyntaxError"

/-- getNewUploadState: the parse above with the catch returning null. -/
def getNewUploadState (c : Cell) : Js :=
  match parseDraft c with
  | .ok v => v
  | .error _ => Js.null

/-- getAdditionalUploadState: same body as getNewUploadState, acting on
the cell under the additional-upload key. -/
def getAdditionalUploadState (c : Cell) : Js :=
  match parseDraft c with
  | .ok v => v
  | .error _ => Js.null

/-- setNewUploadState: sessionStorage.setItem(KEY, JSON.stringify(state)),
which stores valid JSON text for the state. -/
def setNewUploadState (v : Js) (_c : Cell) : Cell :=
  some (.lit v)

/-- onUpload of the NewUpload page, given the outcome of the uploadExcel
call: on success the data field of the response (or null) is persisted
to the draft cell; on failure the cell is untouched and the error banner
shows the error message, with a fallback for an empty one. The pair is
the cell afterwards and the banner text. -/
def onUpload (c : Cell) (resp : Except String Js) : Cell × String :=
  match resp with
  | .ok res => (setNewUploadState (jsOrV (getField res "data") Js.null) c, "")
  | .error e => (c, if e = "" then "Upload failed" else e)

/-- Form fields of the NewDetails page feeding the report payload. -/
structure GenerateInputs where
  dealerName : String
  city : String
  orderDate : String
  freight : String

/-- Payload sent to generateReport by the NewDetails page. -/
def generatePayload (uploadId : Js) (inp : GenerateInputs) : Js :=
  Js.obj [("upload_id", uploadId),
          ("dealer_name", Js.str inp.dealerName),
          ("city", Js.str inp.city),
          ("order_date", Js.str inp.orderDate),
          ("freight_condition", Js.str inp.freight),
          ("is_additional_order", Js.bool false)]

/-- Observable outcome of onGenerate: the draft cell afterwards, the
payload sent over the network (none when the guard returned early), the
result state set on success, and the error banner. -/
structure GenerateOutcome where
  cell : Cell
  sent : Option Js
  result : Option Js
  errorBanner : String

/-- onGenerate of the NewDetails page (src/unnamed/part_002): reads the
draft, returns early unless it carries a truthy upload_id, sends the
payload, and on success stores the result and overwrites the draft with
null; on failure the draft is untouched and the banner shows the error. -/
def onGenerate (c : Cell) (inp : GenerateInputs) (resp : Except String Js) :
    GenerateOutcome :=
  let upload := getNewUploadState c
  if truthyField upload "upload_id" = false then
    { cell := c, sent := none, result := none, errorBanner := "" }
  else
    let payload := generatePayload ((getField upload "upload_id").getD Js.null) inp
    match resp with
    | .ok res =>
        { cell := setNewUploadState Js.null c,
          sent := some payload,
          result := some (jsOrV (getField res "data") Js.null),
          errorBanner := "" }
    | .error e =>
        { cell := c,
          sent := some payload,
          result := none,
          errorBanner := if e = "" then "Failed to generate report" else e }

/-! Search page (src/frontend/src/pages/Search.jsx). -/

/-- String.prototype.trim of JavaScript: removes whitespace from both
ends of the string. -/
def jsTrim (s : String) : String :=
  String.mk (((s.data.dropWhile Char.isWhitespace).reverse.dropWhile
    Char.isWhitespace).reverse)

/-- The local validation message of the search page. -/
def searchLocalError : String := "Type at least 2 characters"

/-- Observable outcome of onSearch: the query string sent over the
network (none when no request was made), the error banner and the
results state. -/
structure SearchOutcome where
  sent : Option String
  errorBanner : String
  results : Js

/-- onSearch of the Search page: trims the query, rejects queries shorter
than two characters locally without any network call, and otherwise
issues the search and stores results or the error message. -/
def onSearch (q : String) (prevResults : Js) (resp : Except String Js) :
    SearchOutcome :=
  let query := jsTrim q
  if query.length < 2 then
    { sent := none, errorBanner := searchLocalError, results := prevResults }
  else
    match resp with
    | .ok res =>
        { sent := some query, errorBanner := "",
          results := jsOrV (getField res "results") (Js.arr []) }
    | .error e =>
        { sent := some query,
          errorBanner := if e = "" then "Search failed" else e,
          results := Js.arr [] }

/-! Auth context (src/frontend/src/auth/AuthContext.jsx). -/

/-- The established user identity: the username field of the login
response data (possibly undefined) and the coerced is_admin flag. -/
structure UserInfo where
  username : Option Js
  is_admin : Bool

/-- Combined auth state: token store plus established user. -/
structure AuthState where
  store : Store
  user : Option UserInfo

/-- login of the auth context, given the outcome of the api.login call:
a failed call propagates; a successful call without a truthy
data.token throws Token missing in response and changes nothing;
otherwise the token is persisted and the user identity established. -/
def login (st : AuthState) (resp : Except String Js) :
    AuthState × Except String Unit :=
  match resp with
  | .error e => (st, Except.error e)
  | .ok res =>
    let t := (chain2 res "data" "token").getD Js.null
    if truthy t = false then
      (st, Except.error "Token missing in response")
    else
      ({ store := setToken (jsToString t) st.store,
         user := some { username := chain2 res "data" "username",
                        is_admin := truthy ((chain2 res "data" "is_admin").getD Js.null) } },
       Except.ok ())

/-! Spec-side message functions, written from the spec text, to be
compared with the message computations embedded from the source. -/

/-- Error-message selection as claim C2 literally states it: the error
field of the parsed body if present, else its message field if present,
else the generic message. Presence here means the field exists,
independent of its value. -/
def claimedApiMsg (data : Js) (status : Nat) : String :=
  match getField data "error" with
  | some e => jsToString e
  | none =>
    match getField data "message" with
    | some m => jsToString m
    | none => genericMsg status

/-- Error-message selection of the generic request operation, with the
fields consulted by truthiness: the error field when truthy, else the
message field when truthy, else the generic message. -/
def specApiMsg (data : Js) (status : Nat) : String :=
  if truthyField data "error" then jsToString ((getField data "error").getD Js.null)
  else if truthyField data "message" then jsToString ((getField data "message").getD Js.null)
  else genericMsg status

/-- Error-message selection of the multipart upload: the error field when
truthy, else the upload-specific generic message; the message field is
never consulted. -/
def specUploadMsg (data : Js) (status : Nat) : String :=
  if truthyField data "error" then jsToString ((getField data "error").getD Js.null)
  else "Upload failed (" ++ toString status ++ ")"

/-- Error-message selection of the binary download: the error field when
truthy, else the download-specific generic message; the message field is
never consulted. -/
def specDownloadMsg (data : Js) (status : Nat) : String :=
  if truthyField data "error" then jsToString ((getField data "error").getD Js.null)
  else "Download failed (" ++ toString status ++ ")"

/-! Helper lemmas shared by several claims. -/

theorem apiFetch_fst (s : Store) (r : Response) :
    (apiFetch s r).1 = if r.status = 401 then none else s := by
  unfold apiFetch clearToken
  split <;> split <;> rfl

theorem uploadExcel_fst (s : Store) (r : Response) :
    (uploadExcel s r).1 = if r.status = 401 then none else s := by
  unfold uploadExcel clearToken
  split <;> split <;> rfl

theorem downloadReportBlob_fst (s : Store) (r : BlobResponse) :
    (downloadReportBlob s r).1 = if r.status = 401 then none else s := by
  unfold downloadReportBlob clearToken
  split <;> split <;> rfl

/-! Claim theorems. -/

/-- C1: for every request issued through apiFetch, uploadExcel or
downloadReportBlob, a response status of exactly 401 leaves the token
store empty afterwards, regardless of the response body, and any other
status leaves the token store untouched. -/
theorem client_clears_token_iff_401 (s : Store) (rA rU : Response) (rD : BlobResponse) :
    ((rA.status = 401 → (apiFetch s rA).1 = none)
      ∧ (rA.status ≠ 401 → (apiFetch s rA).1 = s))
    ∧ ((rU.status = 401 → (uploadExcel s rU).1 = none)
      ∧ (rU.status ≠ 401 → (uploadExcel s rU).1 = s))
    ∧ ((rD.status = 401 → (downloadReportBlob s rD).1 = none)
      ∧ (rD.status ≠ 401 → (downloadReportBlob s rD).1 = s)) := by
  refine ⟨⟨?_, ?_⟩, ⟨?_, ?_⟩, ⟨?_, ?_⟩⟩ <;> intro h <;>
    simp [apiFetch_fst, uploadExcel_fst, downloadReportBlob_fst, h]

/-- Witness for C1 at concrete responses: a 401 upload response empties
the store, a 500 response leaves it intact. -/
theorem client_clears_token_iff_401_witness :
    (uploadExcel (some "tok") { status := 401, jsonBody := none }).1 = none
    ∧ (apiFetch (some "tok") { status := 500, jsonBody := none }).1 = some "tok" :=
  ⟨(client_clears_token_iff_401 (some "tok")
      { status := 500, jsonBody := none }
      { status := 401, jsonBody := none }
      { status := 200, jsonBody := none, payload := [] }).2.1.1 rfl,
   (client_clears_token_iff_401 (some "tok")
      { status := 500, jsonBody := none }
      { status := 401, jsonBody := none }
      { status := 200, jsonBody := none, payload := [] }).1.2 (by decide)⟩

/-- C5: setToken with the empty (falsy) token is a no-op on the token
storage; in particular getToken never turns into the empty string when a
non-empty token was stored. -/
theorem setToken_empty_noop (s : Store) :
    setToken "" s = s
    ∧ getToken (setToken "" s) = getToken s
    ∧ (∀ v, s = some v → v ≠ "" → getToken (setToken "" s) ≠ "") := by
  refine ⟨rfl, rfl, ?_⟩
  intro v hv hne
  subst hv
  simp [setToken, getToken, hne]

/-- Witness for C5 with the stored token abc. -/
theorem setToken_empty_noop_witness :
    setToken "" (some "abc") = some "abc"
    ∧ getToken (setToken "" (some "abc")) ≠ "" :=
  ⟨(setToken_empty_noop (some "abc")).1,
   (setToken_empty_noop (some "abc")).2.2 "abc" rfl (by decide)⟩

/-- C6: setToken with a non-empty token followed by getToken returns that
token, and clearToken followed by getToken returns the empty string, from
any storage state. -/
theorem setToken_clearToken_roundtrip (s s2 : Store) (t : String) (h : t ≠ "") :
    getToken (setToken t s) = t ∧ getToken (clearToken s2) = "" := by
  refine ⟨?_, rfl⟩
  simp [setToken, getToken, h]

/-- Witness for C6 with the token abc. -/
theorem setToken_clearToken_roundtrip_witness :
    getToken (setToken "abc" (some "old")) = "abc"
    ∧ getToken (clearToken (some "old")) = "" :=
  setToken_clearToken_roundtrip (some "old") (some "old") "abc" (by decide)

/-- C9: the upload-draft readers are total: an absent cell, an empty
string and malformed JSON all yield null, a cell holding JSON text of v
yields v, and getAdditionalUploadState computes the same function of its
cell as getNewUploadState. -/
theorem draft_readers_total (c : Cell) :
    (c = none → getNewUploadState c = Js.null)
    ∧ (c = some StoredText.malformed → getNewUploadState c = Js.null)
    ∧ (c = some StoredText.empty → getNewUploadState c = Js.null)
    ∧ (∀ v, c = some (StoredText.lit v) → getNewUploadState c = v)
    ∧ getAdditionalUploadState c = getNewUploadState c := by
  refine ⟨fun h => by subst h; rfl, fun h => by subst h; rfl,
    fun h => by subst h; rfl, fun v hv => by subst hv; rfl, rfl⟩

/-- Witness for C9 at the absent and the malformed cell. -/
theorem draft_readers_total_witness :
    getNewUploadState none = Js.null
    ∧ getNewUploadState (some StoredText.malformed) = Js.null :=
  ⟨(draft_readers_total none).1 rfl,
   (draft_readers_total (some StoredText.malformed)).2.1 rfl⟩

/-- C10: a login response that is an HTTP success whose data.token is
absent or falsy makes login throw Token missing in response while the
token store and the established user stay exactly as they were. -/
theorem login_missing_token (st : AuthState) (res : Js)
    (h : truthy ((chain2 res "data" "token").getD Js.null) = false) :
    login st (Except.ok res) = (st, Except.error "Token missing in response") := by
  simp [login, h]

/-- Witness for C10: a success response whose data object has no token
field, against a state holding a token and no user. -/
theorem login_missing_token_witness :
    login { store := some "old", user := none }
        (Except.ok (Js.obj [("data", Js.obj [("username", Js.str "u")])]))
      = ({ store := some "old", user := none },
         Except.error "Token missing in response") :=
  login_missing_token { store := some "old", user := none }
    (Js.obj [("data", Js.obj [("username", Js.str "u")])]) rfl

theorem apiFetchMsg_eq_specApiMsg (data : Js) (status : Nat) :
    apiFetchMsg data status = specApiMsg data status := by
  cases he : getField data "error" with
  | none =>
    cases hm : getField data "message" with
    | none => simp [apiFetchMsg, specApiMsg, truthyField, jsOrV, he, hm, jsToString]
    | some m =>
      by_cases ht : truthy m <;>
        simp [apiFetchMsg, specApiMsg, truthyField, jsOrV, he, hm, ht, jsToString]
  | some e =>
    by_cases ht : truthy e
    · simp [apiFetchMsg, specApiMsg, truthyField, jsOrV, he, ht]
    · cases hm : getField data "message" with
      | none => simp [apiFetchMsg, specApiMsg, truthyField, jsOrV, he, hm, ht, jsToString]
      | some m =>
        by_cases ht2 : truthy m <;>
          simp [apiFetchMsg, specApiMsg, truthyField, jsOrV, he, hm, ht, ht2, jsToString]

theorem uploadMsg_eq_specUploadMsg (data : Js) (status : Nat) :
    uploadMsg data status = specUploadMsg data status := by
  cases he : getField data "error" with
  | none => simp [uploadMsg, specUploadMsg, truthyField, jsOrV, he, jsToString]
  | some e =>
    by_cases ht : truthy e <;>
      simp [uploadMsg, specUploadMsg, truthyField, jsOrV, he, ht, jsToString]

theorem downloadMsg_eq_specDownloadMsg (data : Js) (status : Nat) :
    downloadMsg data status = specDownloadMsg data status := by
  cases he : getField data "error" with
  | none => simp [downloadMsg, specDownloadMsg, truthyField, jsOrV, he, jsToString]
  | some e =>
    by_cases ht : truthy e <;>
      simp [downloadMsg, specDownloadMsg, truthyField, jsOrV, he, ht, jsToString]

/-- C2 as stated fails: on a response of status 500 whose body is the
object with an error field holding the empty string, the field is
present, so the claim requires the failure message to be that empty
string, but apiFetch selects fields by truthiness and produces the
generic message instead. -/
theorem apiFetch_error_presence_cex :
    claimedApiMsg (Js.obj [("error", Js.str "")]) 500 = ""
    ∧ (apiFetch none
        { status := 500, jsonBody := some (Js.obj [("error", Js.str "")]) }).2
        = Except.error "Request failed (500)"
    ∧ ("Request failed (500)" : String) ≠ "" :=
  ⟨rfl, rfl, by decide⟩

/-- C2 (amended): apiFetch treats an unparsable body as the empty object,
returns the parsed body unmodified on a success status, and on a
non-success status fails with the error field of the parsed body when
truthy, else its message field when truthy, else the generic message
Request failed (status). -/
theorem apiFetch_response_contract (s : Store) (r : Response) :
    (r.jsonBody = none → parsedBody r = Js.obj [])
    ∧ (resOk r.status = true → (apiFetch s r).2 = Except.ok (parsedBody r))
    ∧ (resOk r.status = false →
        (apiFetch s r).2 = Except.error (specApiMsg (parsedBody r) r.status)) := by
  refine ⟨fun h => by simp [parsedBody, h],
    fun h => by simp [apiFetch, h],
    fun h => by simp [apiFetch, h, apiFetchMsg_eq_specApiMsg]⟩

/-- Witness for amended C2: a 200 response returns its body, a 500
response with unparsable body yields the empty object and the generic
message. -/
theorem apiFetch_response_contract_witness :
    (apiFetch none { status := 200, jsonBody := some (Js.obj [("x", Js.num 1)]) }).2
        = Except.ok (Js.obj [("x", Js.num 1)])
    ∧ parsedBody { status := 500, jsonBody := none } = Js.obj []
    ∧ (apiFetch none { status := 500, jsonBody := none }).2
        = Except.error "Request failed (500)" :=
  ⟨(apiFetch_response_contract none
      { status := 200, jsonBody := some (Js.obj [("x", Js.num 1)]) }).2.1 rfl,
   (apiFetch_response_contract none { status := 500, jsonBody := none }).1 rfl,
   (apiFetch_response_contract none { status := 500, jsonBody := none }).2.2 rfl⟩

/-- C3 as stated fails: on a status 500 body whose message field is the
string boom, apiFetch would fail with boom, but uploadExcel ignores the
message field and fails with Upload failed (500), and downloadReportBlob
fails with Download failed (500); neither uses the message field nor the
generic text Request failed. -/
theorem upload_download_error_cex :
    (uploadExcel none
        { status := 500, jsonBody := some (Js.obj [("message", Js.str "boom")]) }).2
        = Except.error "Upload failed (500)"
    ∧ (downloadReportBlob none
        { status := 500, jsonBody := some (Js.obj [("message", Js.str "boom")]),
          payload := [] }).2
        = Except.error "Download failed (500)"
    ∧ apiFetchMsg (Js.obj [("message", Js.str "boom")]) 500 = "boom"
    ∧ ("Upload failed (500)" : String) ≠ "boom"
    ∧ ("Download failed (500)" : String) ≠ "boom" :=
  ⟨rfl, rfl, rfl, by decide, by decide⟩

/-- C3 (amended): on every non-success response uploadExcel fails with
the error field of the parsed body when truthy and with Upload failed
(status) otherwise, and downloadReportBlob fails with the error field
when truthy and with Download failed (status) otherwise; the message
field is never consulted. -/
theorem upload_download_error_messages (s s2 : Store) (r : Response) (rd : BlobResponse)
    (h : resOk r.status = false) (h2 : resOk rd.status = false) :
    (uploadExcel s r).2 = Except.error (specUploadMsg (parsedBody r) r.status)
    ∧ (downloadReportBlob s2 rd).2
        = Except.error (specDownloadMsg (rd.jsonBody.getD (Js.obj [])) rd.status) := by
  constructor
  · simp [uploadExcel, h, uploadMsg_eq_specUploadMsg]
  · simp [downloadReportBlob, h2, downloadMsg_eq_specDownloadMsg]

/-- Witness for amended C3: an upload failure with a truthy error field
surfaces it, a download failure with an unparsable body falls back to the
download generic message. -/
theorem upload_download_error_messages_witness :
    (uploadExcel none
        { status := 500, jsonBody := some (Js.obj [("error", Js.str "bad file")]) }).2
        = Except.error "bad file"
    ∧ (downloadReportBlob none { status := 404, jsonBody := none, payload := [] }).2
        = Except.error "Download failed (404)" :=
  ⟨(upload_download_error_messages none none
      { status := 500, jsonBody := some (Js.obj [("error", Js.str "bad file")]) }
      { status := 404, jsonBody := none, payload := [] } rfl rfl).1,
   (upload_download_error_messages none none
      { status := 500, jsonBody := some (Js.obj [("error", Js.str "bad file")]) }
      { status := 404, jsonBody := none, payload := [] } rfl rfl).2⟩

theorem countKey_append (a b : List (String × String)) (k : String) :
    countKey (a ++ b) k = countKey a k + countKey b k := by
  simp [countKey, List.filter_append]

theorem countKey_eq_zero_of_forall (hs : List (String × String)) (k : String)
    (h : ∀ p ∈ hs, p.1 ≠ k) : countKey hs k = 0 := by
  have hnil : hs.filter (fun p => p.1 == k) = [] := by
    rw [List.filter_eq_nil_iff]
    intro p hp
    simpa [beq_iff_eq] using h p hp
  simp [countKey, hnil]

theorem countKey_jsSpread_single (a : List (String × String)) (k v : String) :
    countKey (jsSpread a [(k, v)]) k = 1 := by
  unfold jsSpread
  rw [countKey_append]
  have h0 : countKey (a.filter fun p => !(([(k, v)].map Prod.fst).contains p.1)) k = 0 := by
    apply countKey_eq_zero_of_forall
    intro p hp
    have h1 := (List.mem_filter.mp hp).2
    simpa using h1
  rw [h0]
  simp [countKey]

theorem countKey_spread_ct (hs : List (String × String)) :
    countKey (jsSpread [("Content-Type", "application/json")] hs) "Authorization"
      = countKey hs "Authorization" := by
  unfold jsSpread
  rw [countKey_append]
  have h0 : countKey
      ([("Content-Type", "application/json")].filter
        fun p => !((hs.map Prod.fst).contains p.1)) "Authorization" = 0 := by
    apply countKey_eq_zero_of_forall
    intro p hp
    have h1 := (List.mem_filter.mp hp).1
    simp at h1
    subst h1
    decide
  rw [h0]
  omega

/-- C4: apiFetch with the auth flag off sends no Authorization header
whatever the stored token; with the auth flag on and a stored token it
sends Authorization Bearer token exactly once; with the auth flag on and
an empty token store it sends no Authorization header. The caller-given
extra headers are assumed not to carry an Authorization entry themselves,
as holds for every call site of the client. -/
theorem apiFetch_auth_header_contract (s : Store) (headers : List (String × String))
    (h : ∀ p ∈ headers, p.1 ≠ "Authorization") :
    countKey (apiFetchHeaders s false headers) "Authorization" = 0
    ∧ (getToken s ≠ "" →
        countKey (apiFetchHeaders s true headers) "Authorization" = 1
        ∧ ("Authorization", "Bearer " ++ getToken s) ∈ apiFetchHeaders s true headers)
    ∧ (getToken s = "" →
        countKey (apiFetchHeaders s true headers) "Authorization" = 0) := by
  refine ⟨?_, ?_, ?_⟩
  · show countKey (jsSpread [("Content-Type", "application/json")] headers)
      "Authorization" = 0
    rw [countKey_spread_ct]
    exact countKey_eq_zero_of_forall _ _ h
  · intro ht
    have hw : withAuthHeaders s headers
        = jsSpread headers [("Authorization", "Bearer " ++ getToken s)] := by
      unfold withAuthHeaders
      simp [ht]
    constructor
    · show countKey (jsSpread [("Content-Type", "application/json")]
        (withAuthHeaders s headers)) "Authorization" = 1
      rw [countKey_spread_ct, hw, countKey_jsSpread_single]
    · show ("Authorization", "Bearer " ++ getToken s)
        ∈ jsSpread [("Content-Type", "application/json")] (withAuthHeaders s headers)
      rw [hw]
      unfold jsSpread
      refine List.mem_append_right _ ?_
      refine List.mem_append_right _ ?_
      exact List.mem_singleton.mpr rfl
  · intro ht
    have hw : withAuthHeaders s headers = headers := by
      unfold withAuthHeaders
      simp [ht]
    show countKey (jsSpread [("Content-Type", "application/json")]
      (withAuthHeaders s headers)) "Authorization" = 0
    rw [countKey_spread_ct, hw]
    exact countKey_eq_zero_of_forall _ _ h

/-- Witness for C4 with the stored token T and one extra caller header. -/
theorem apiFetch_auth_header_contract_witness :
    countKey (apiFetchHeaders (some "T") false [("X-Req", "1")]) "Authorization" = 0
    ∧ countKey (apiFetchHeaders (some "T") true [("X-Req", "1")]) "Authorization" = 1
    ∧ ("Authorization", "Bearer T") ∈ apiFetchHeaders (some "T") true [("X-Req", "1")]
    ∧ countKey (apiFetchHeaders none true [("X-Req", "1")]) "Authorization" = 0 := by
  have h := apiFetch_auth_header_contract (some "T") [("X-Req", "1")] (by decide)
  have h0 := apiFetch_auth_header_contract none [("X-Req", "1")] (by decide)
  have ht := h.2.1 (by decide)
  exact ⟨h.1, ht.1, ht.2, h0.2.2 rfl⟩

/-- C7: a successful upload persists the data field of the response to
the session draft; onGenerate reads the upload_id of that draft and sends
it in the report payload; on a successful generateReport the draft is
overwritten with null, so a subsequent read yields no draft, and on a
failed generateReport the draft cell is untouched. -/
theorem upload_generate_workflow (c c2 : Cell) (res d : Js) (inp : GenerateInputs)
    (resp : Except String Js)
    (hd : getField res "data" = some d) (hdt : truthy d = true)
    (hUid : truthyField (getNewUploadState c2) "upload_id" = true) :
    getNewUploadState (onUpload c (Except.ok res)).1 = d
    ∧ (∃ p, (onGenerate c2 inp resp).sent = some p
        ∧ getField p "upload_id" = getField (getNewUploadState c2) "upload_id")
    ∧ (∀ r2, resp = Except.ok r2 →
        getNewUploadState (onGenerate c2 inp resp).cell = Js.null)
    ∧ (∀ e, resp = Except.error e → (onGenerate c2 inp resp).cell = c2) := by
  obtain ⟨u, hu1, hu2⟩ : ∃ u, getField (getNewUploadState c2) "upload_id" = some u
      ∧ truthy u = true := by
    unfold truthyField at hUid
    cases hg : getField (getNewUploadState c2) "upload_id" with
    | none => rw [hg] at hUid; simp at hUid
    | some u => rw [hg] at hUid; exact ⟨u, rfl, hUid⟩
  refine ⟨?_, ⟨generatePayload u inp, ?_, ?_⟩, ?_, ?_⟩
  · simp [onUpload, setNewUploadState, getNewUploadState, parseDraft, jsOrV, hd, hdt]
  · unfold onGenerate
    cases resp <;> simp [hUid, hu1]
  · rw [hu1]
    simp [generatePayload, getField, List.lookup]
  · intro r2 hr
    subst hr
    simp only [onGenerate, hUid]
    simp [getNewUploadState, setNewUploadState, parseDraft]
  · intro e he
    subst he
    simp only [onGenerate, hUid]
    simp

/-- Witness for C7: the upload response of the spec example is persisted,
and a successful generate clears the draft. -/
theorem upload_generate_workflow_witness :
    getNewUploadState (onUpload none (Except.ok (Js.obj [("data",
        Js.obj [("upload_id", Js.str "U1"), ("filename", Js.str "f.xlsx")])]))).1
      = Js.obj [("upload_id", Js.str "U1"), ("filename", Js.str "f.xlsx")]
    ∧ getNewUploadState (onGenerate
        (some (StoredText.lit (Js.obj [("upload_id", Js.str "U1"),
          ("filename", Js.str "f.xlsx")])))
        { dealerName := "D", city := "C", orderDate := "2026-01-01", freight := "FOB" }
        (Except.ok (Js.obj [("data", Js.obj [("order_id", Js.str "O1")])]))).cell
      = Js.null := by
  have h := upload_generate_workflow none
    (some (StoredText.lit (Js.obj [("upload_id", Js.str "U1"),
      ("filename", Js.str "f.xlsx")])))
    (Js.obj [("data", Js.obj [("upload_id", Js.str "U1"),
      ("filename", Js.str "f.xlsx")])])
    (Js.obj [("upload_id", Js.str "U1"), ("filename", Js.str "f.xlsx")])
    { dealerName := "D", city := "C", orderDate := "2026-01-01", freight := "FOB" }
    (Except.ok (Js.obj [("data", Js.obj [("order_id", Js.str "O1")])]))
    rfl rfl rfl
  exact ⟨h.1, h.2.2.1 (Js.obj [("data", Js.obj [("order_id", Js.str "O1")])]) rfl⟩

/-- C8: a search whose trimmed query is shorter than two characters makes
no network request and puts the local validation message into the same
error banner; a trimmed query of length at least two is sent over the
network. -/
theorem search_local_validation (q : String) (prev : Js) (resp : Except String Js) :
    ((jsTrim q).length < 2 →
      (onSearch q prev resp).sent = none
      ∧ (onSearch q prev resp).errorBanner = searchLocalError)
    ∧ (2 ≤ (jsTrim q).length → (onSearch q prev resp).sent = some (jsTrim q)) := by
  constructor
  · intro h
    constructor <;> simp [onSearch, h]
  · intro h
    have h2 : ¬(jsTrim q).length < 2 := not_lt.mpr h
    cases resp <;> simp [onSearch, h2]

/-- Witness for C8: a one-character padded query stays local with the
banner message, a two-character query is sent trimmed. -/
theorem search_local_validation_witness :
    (onSearch " a " Js.null (Except.ok (Js.obj []))).sent = none
    ∧ (onSearch " a " Js.null (Except.ok (Js.obj []))).errorBanner
        = "Type at least 2 characters"
    ∧ (onSearch "ab" Js.null (Except.ok (Js.obj []))).sent = some "ab" := by
  have h1 := (search_local_validation " a " Js.null (Except.ok (Js.obj []))).1 (by decide)
  have h2 := (search_local_validation "ab" Js.null (Except.ok (Js.obj []))).2 (by decide)
  exact ⟨h1.1, h1.2, h2⟩

end OrderApp
